import Mathlib

/-!
Verification of the Battle-City-style tank game core (map store, projectiles,
collision resolution, firing gates, spawn director) against its specification.
Definitions are shallow embeddings of the Python source in
`map_manager.py`, `bullet.py`, `player.py`, `enemy.py`, `collision.py`,
with the numeric constants from `constants.py`.
Pixel coordinates, which the source stores as Python floats that only ever
undergo exact arithmetic in the embedded operations, are modelled as rationals;
Python `int()` (truncation toward zero) and `//` (floor division) are modelled
explicitly.
-/

namespace BattleTank

/-! ## Constants (constants.py) -/

def SCREEN_WIDTH : ℤ := 256
def SCREEN_HEIGHT : ℤ := 240
def UI_HEIGHT : ℤ := 16
def TILE_SIZE : ℤ := 16
def MAP_WIDTH : ℤ := 16
def MAP_HEIGHT : ℤ := 14

def UP : Nat := 0
def DOWN : Nat := 1
def LEFT : Nat := 2
def RIGHT : Nat := 3

/-- DIRECTION_VECTORS lookup with the source's `.get(direction, (0, 0))` default. -/
def directionVector (d : Nat) : ℤ × ℤ :=
  if d = UP then (0, -1)
  else if d = DOWN then (0, 1)
  else if d = LEFT then (-1, 0)
  else if d = RIGHT then (1, 0)
  else (0, 0)

def TANK_PLAYER : Nat := 0
def TANK_LIGHT : Nat := 1
def TANK_ARMORED : Nat := 2
def TANK_FAST_SHOT : Nat := 3
def TANK_HEAVY : Nat := 4

def POWER_NORMAL : Nat := 0
def POWER_FAST_SHOT : Nat := 1
def POWER_DOUBLE_SHOT : Nat := 2
def POWER_SUPER : Nat := 3

def TILE_EMPTY : Nat := 0
def TILE_BRICK : Nat := 1
def TILE_STEEL : Nat := 2
def TILE_WATER : Nat := 3
def TILE_FOREST : Nat := 4
def TILE_ICE : Nat := 5
def TILE_BASE : Nat := 6

def BASE_GRID_X : ℤ := 7
def BASE_GRID_Y : ℤ := 13

def TANK_SPEED : ℤ := 1
def BULLET_SPEED : ℤ := 2
def MAX_ENEMIES_ON_SCREEN : Nat := 4
def AI_ATTACK_RANGE : ℤ := 12
def PLAYER_LIVES : ℤ := 3
def MAX_PLAYER_LIVES : ℤ := 9
def INVINCIBLE_FRAMES : ℤ := 120
def DELAYED_DESTRUCTION_FRAMES : ℤ := 24

def ITEM_STAR : Nat := 0
def ITEM_GRENADE : Nat := 1
def ITEM_TANK : Nat := 2
def ITEM_SHOVEL : Nat := 3
def ITEM_CLOCK : Nat := 4
def ITEM_HELMET : Nat := 5

/-- ITEM_CARRIER_PROBABILITY = 0.25. -/
def ITEM_CARRIER_PROBABILITY : ℚ := 1 / 4

/-- ENEMY_HEALTH lookup with the source's `.get(enemy_type, 1)` default. -/
def enemyHealth (t : Nat) : ℤ :=
  if t = TANK_LIGHT then 1
  else if t = TANK_ARMORED then 1
  else if t = TANK_FAST_SHOT then 1
  else if t = TANK_HEAVY then 4
  else 1

/-- ENEMY_FIRE_RATE lookup with the source's `.get(enemy_type, 90)` default. -/
def enemyFireRate (t : Nat) : ℤ :=
  if t = TANK_LIGHT then 90
  else if t = TANK_ARMORED then 90
  else if t = TANK_FAST_SHOT then 30
  else if t = TANK_HEAVY then 90
  else 90

/-! ## Python numeric primitives -/

/-- Python `int()` applied to a float: truncation toward zero. -/
def ratTrunc (q : ℚ) : ℤ := if 0 ≤ q then ⌊q⌋ else ⌈q⌉

/-! ## Grid map (map_manager.py `MapManager`) -/

/-- One entry of `delayed_destructions`: `{'x': grid_x, 'y': grid_y, 'timer': frames}`. -/
structure Destruction where
  x : ℤ
  y : ℤ
  timer : ℤ
deriving DecidableEq, Repr

/-- The map manager's mutable state: the W×H tile grid (modelled as a total
store read through the bounds-checked accessors below) and the
delayed-destruction queue. -/
structure MapState where
  grid : ℤ → ℤ → Nat
  delayed : List Destruction

def inBounds (x y : ℤ) : Prop := 0 ≤ x ∧ x < MAP_WIDTH ∧ 0 ≤ y ∧ y < MAP_HEIGHT

instance (x y : ℤ) : Decidable (inBounds x y) :=
  inferInstanceAs (Decidable (0 ≤ x ∧ x < MAP_WIDTH ∧ 0 ≤ y ∧ y < MAP_HEIGHT))

/-- `MapManager.get_tile`: the stored tile inside bounds, TILE_STEEL outside. -/
def getTile (m : MapState) (x y : ℤ) : Nat :=
  if inBounds x y then m.grid x y else TILE_STEEL

/-- `MapManager.set_tile`: writes inside bounds, silently ignores out-of-bounds. -/
def setTile (m : MapState) (x y : ℤ) (t : Nat) : MapState :=
  if inBounds x y then
    { m with grid := fun a b => if a = x ∧ b = y then t else m.grid a b }
  else m

/-- `MapManager.is_passable`: blocked while a delayed destruction is pending at
the cell, otherwise passable exactly for EMPTY / FOREST / ICE. -/
def isPassable (m : MapState) (x y : ℤ) : Bool :=
  if m.delayed.any fun d => decide (d.x = x ∧ d.y = y) then false
  else decide (getTile m x y = TILE_EMPTY ∨ getTile m x y = TILE_FOREST ∨
    getTile m x y = TILE_ICE)

/-- `MapManager.can_destroy`: brick by any power, steel only by POWER_SUPER,
base and everything else indestructible. -/
def canDestroy (m : MapState) (x y : ℤ) (power : Nat) : Bool :=
  let tile := getTile m x y
  if tile = TILE_BRICK then true
  else if tile = TILE_STEEL ∧ POWER_SUPER ≤ power then true
  else if tile = TILE_BASE then false
  else false

/-- `MapManager.schedule_tile_destruction`. Note the source guards with
`self.can_destroy(x, y)`, i.e. at the defaulted power level POWER_NORMAL. -/
def scheduleTileDestruction (m : MapState) (x y : ℤ) (delay : ℤ) :
    MapState × Bool :=
  if canDestroy m x y POWER_NORMAL then
    ({ m with delayed := m.delayed ++ [⟨x, y, delay⟩] }, true)
  else (m, false)

/-- `MapManager.update_delayed_destructions` (one tick of the queue): every
timer is decremented; entries reaching ≤ 0 set their tile to TILE_EMPTY and
leave the queue. -/
def tickMap (m : MapState) : MapState :=
  let dec := m.delayed.map fun d => { d with timer := d.timer - 1 }
  (dec.filter fun d => decide (d.timer ≤ 0)).foldl
    (fun acc d => setTile acc d.x d.y TILE_EMPTY)
    { m with delayed := dec.filter fun d => decide (0 < d.timer) }

/-- `MapManager.pixel_to_grid`: `int(pixel // TILE_SIZE)` on each axis; the
float floor-division result is integral, so `int()` leaves the floor. -/
def pixelToGrid (px py : ℚ) : ℤ × ℤ := (⌊px / 16⌋, ⌊py / 16⌋)

/-- `MapManager.grid_to_pixel`: top-left pixel of the cell. -/
def gridToPixel (gx gy : ℤ) : ℤ × ℤ := (gx * TILE_SIZE, gy * TILE_SIZE)

/-! ## Claims C3, C4, C10 -/

/-- C3: for every cell (x, y), the actor-passability check returns true iff the
tile kind there is Empty, Forest or Ice and no pending-destruction entry with
coordinates (x, y) exists in the delayed-destruction queue. -/
theorem passable_iff_kind_and_not_pending (m : MapState) (x y : ℤ) :
    isPassable m x y = true ↔
      ((getTile m x y = TILE_EMPTY ∨ getTile m x y = TILE_FOREST ∨
        getTile m x y = TILE_ICE) ∧
       ∀ d ∈ m.delayed, ¬(d.x = x ∧ d.y = y)) := by
  unfold isPassable
  split
  next hsch =>
    rw [List.any_eq_true] at hsch
    obtain ⟨d, hd, hdec⟩ := hsch
    constructor
    · intro hfalse; cases hfalse
    · rintro ⟨-, hnone⟩
      exact absurd (of_decide_eq_true hdec) (hnone d hd)
  next hsch =>
    rw [Bool.not_eq_true, List.any_eq_false] at hsch
    simp only [decide_eq_true_eq]
    constructor
    · intro hk
      refine ⟨hk, fun d hd hp => ?_⟩
      exact hsch d hd (decide_eq_true hp)
    · rintro ⟨hk, -⟩
      exact hk

/-- A concrete instantiation of the passability characterisation. -/
theorem passable_iff_kind_and_not_pending_witness :
    isPassable ⟨fun _ _ => TILE_EMPTY, []⟩ 3 4 = true ↔
      ((getTile ⟨fun _ _ => TILE_EMPTY, []⟩ 3 4 = TILE_EMPTY ∨
        getTile ⟨fun _ _ => TILE_EMPTY, []⟩ 3 4 = TILE_FOREST ∨
        getTile ⟨fun _ _ => TILE_EMPTY, []⟩ 3 4 = TILE_ICE) ∧
       ∀ d ∈ ([] : List Destruction), ¬(d.x = 3 ∧ d.y = 4)) :=
  passable_iff_kind_and_not_pending ⟨fun _ _ => TILE_EMPTY, []⟩ 3 4

/-- C4: for every cell outside the 16×14 grid, `get_tile` returns Steel and
`set_tile` is a no-op leaving every cell of the map unchanged. -/
theorem out_of_bounds_tile_access (m : MapState) (x y : ℤ) (t : Nat)
    (hoob : ¬ inBounds x y) :
    getTile m x y = TILE_STEEL ∧
    (∀ a b : ℤ, (setTile m x y t).grid a b = m.grid a b) ∧
    (setTile m x y t).delayed = m.delayed := by
  refine ⟨?_, ?_, ?_⟩
  · unfold getTile; rw [if_neg hoob]
  · intro a b; unfold setTile; rw [if_neg hoob]
  · unfold setTile; rw [if_neg hoob]

/-- Out-of-bounds access behaviour at the concrete cell (16, 3). -/
theorem out_of_bounds_tile_access_witness :
    getTile ⟨fun _ _ => TILE_BRICK, []⟩ 16 3 = TILE_STEEL ∧
    (∀ a b : ℤ,
      (setTile ⟨fun _ _ => TILE_BRICK, []⟩ 16 3 TILE_EMPTY).grid a b =
        TILE_BRICK) ∧
    (setTile ⟨fun _ _ => TILE_BRICK, []⟩ 16 3 TILE_EMPTY).delayed = [] :=
  out_of_bounds_tile_access ⟨fun _ _ => TILE_BRICK, []⟩ 16 3 TILE_EMPTY
    (by decide)

/-- C10: converting a grid cell to pixels and back is the identity, for every
pair of integer grid coordinates. -/
theorem pixel_grid_round_trip (gx gy : ℤ) :
    pixelToGrid ((gridToPixel gx gy).1 : ℚ) ((gridToPixel gx gy).2 : ℚ) =
      (gx, gy) := by
  unfold pixelToGrid gridToPixel TILE_SIZE
  have hx : ((gx * 16 : ℤ) : ℚ) / 16 = (gx : ℚ) := by push_cast; ring
  have hy : ((gy * 16 : ℤ) : ℚ) / 16 = (gy : ℚ) := by push_cast; ring
  simp only [hx, hy, Int.floor_intCast]

/-! ## Projectiles (bullet.py `Bullet`) -/

/-- A projectile, mirroring `Bullet.__init__`'s attributes. -/
structure Bullet where
  x : ℚ
  y : ℚ
  direction : Nat
  speed : ℤ
  owner_type : Nat
  power_level : Nat
  active : Bool
  dx : ℚ
  dy : ℚ
deriving DecidableEq, Repr

/-- `Bullet.__init__`: precomputes the velocity components from the direction
vector and the scalar speed. -/
def mkBullet (x y : ℚ) (direction : Nat) (speed : ℤ) (owner_type : Nat)
    (power_level : Nat) : Bullet :=
  { x := x, y := y, direction := direction, speed := speed,
    owner_type := owner_type, power_level := power_level, active := true,
    dx := ((directionVector direction).1 * speed : ℤ),
    dy := ((directionVector direction).2 * speed : ℤ) }

/-- `Bullet._is_out_of_bounds`: outside `[0, SCREEN_WIDTH) × [0, MAP_HEIGHT*TILE_SIZE)`. -/
def bulletOutOfBounds (b : Bullet) : Bool :=
  decide (b.x < 0 ∨ (SCREEN_WIDTH : ℚ) ≤ b.x ∨ b.y < 0 ∨
    ((MAP_HEIGHT * TILE_SIZE : ℤ) : ℚ) ≤ b.y)

/-- Result of one `Bullet.update` call: the bullet, the possibly-changed map,
explosion positions emitted to the sink, and the base-hit (game-over) signal. -/
structure AdvanceResult where
  bullet : Bullet
  map : MapState
  explosions : List (ℚ × ℚ)
  baseHit : Bool

/-- `Bullet.update` together with `_handle_map_collision`,
`_handle_destructible_collision` and `_handle_special_tile_collision`:
Euler step, bounds check, then tile collision (destructible tiles get an
explosion plus a `schedule_tile_destruction` call; BASE signals game over;
STEEL stops sub-Super bullets; everything else lets the bullet pass). -/
def bulletUpdate (b : Bullet) (m : MapState) : AdvanceResult :=
  if b.active = false then ⟨b, m, [], false⟩
  else
    let b1 := { b with x := b.x + b.dx, y := b.y + b.dy }
    if bulletOutOfBounds b1 then ⟨{ b1 with active := false }, m, [], false⟩
    else
      let g := pixelToGrid ((ratTrunc b1.x : ℤ) : ℚ) ((ratTrunc b1.y : ℤ) : ℚ)
      if canDestroy m g.1 g.2 b1.power_level then
        let s := scheduleTileDestruction m g.1 g.2 DELAYED_DESTRUCTION_FRAMES
        ⟨{ b1 with active := false }, s.1, [(b1.x, b1.y)], false⟩
      else
        let tile := getTile m g.1 g.2
        if tile = TILE_BASE then
          ⟨{ b1 with active := false }, m, [(b1.x, b1.y)], true⟩
        else if tile = TILE_STEEL ∧ b1.power_level < POWER_SUPER then
          ⟨{ b1 with active := false }, m, [(b1.x, b1.y)], false⟩
        else ⟨b1, m, [], false⟩

/-- An axis-aligned rectangle `(x, y, width, height)`. -/
structure Rect where
  x : ℤ
  y : ℤ
  w : ℤ
  h : ℤ
deriving DecidableEq, Repr

/-- The strict AABB overlap test shared verbatim by
`BulletManager.check_bullet_collision` and
`CollisionManager.check_rect_collision`. -/
def rectsOverlap (r1 r2 : Rect) : Bool :=
  decide (r1.x < r2.x + r2.w ∧ r1.x + r1.w > r2.x ∧
    r1.y < r2.y + r2.h ∧ r1.y + r1.h > r2.y)

/-- `Bullet.get_rect`: the 2×2 box centred on the bullet position. -/
def bulletRect (b : Bullet) : Rect :=
  ⟨ratTrunc (b.x - 1), ratTrunc (b.y - 1), 2, 2⟩

/-- `BulletManager.check_bullet_collision`. -/
def checkBulletCollision (b1 b2 : Bullet) : Bool :=
  rectsOverlap (bulletRect b1) (bulletRect b2)

/-- `BulletManager._resolve_bullet_collision`'s explosion point: the midpoint
of the two bullets. -/
def bulletCollisionPoint (b1 b2 : Bullet) : ℚ × ℚ :=
  ((b1.x + b2.x) / 2, (b1.y + b2.y) / 2)

/-- The inner loop of `BulletManager.update_bullet_collisions` for a fixed
`bullet1`: walk `bullets[i+1:]`, and on an active, different-owner, overlapping
`bullet2` deactivate both and emit the midpoint explosion
(`_resolve_bullet_collision`). The source does not re-test `bullet1.active`
inside this loop. Returns the updated `bullet1`, the updated tail, and the
explosions in emission order. -/
def sweepInner : Bullet → List Bullet → Bullet × List Bullet × List (ℚ × ℚ)
  | b1, [] => (b1, [], [])
  | b1, b2 :: tl =>
    if b2.active = true ∧ b1.owner_type ≠ b2.owner_type ∧
        checkBulletCollision b1 b2 = true then
      let r := sweepInner { b1 with active := false } tl
      (r.1, { b2 with active := false } :: r.2.1,
        bulletCollisionPoint b1 b2 :: r.2.2)
    else
      let r := sweepInner b1 tl
      (r.1, b2 :: r.2.1, r.2.2)

/-- The outer loop of `BulletManager.update_bullet_collisions`: each index in
turn is skipped when inactive, otherwise swept against the (already updated)
later bullets. The fuel argument is only a structural-termination device; it
is instantiated with the list length, which every step preserves. -/
def sweepOuter : Nat → List Bullet → List Bullet × List (ℚ × ℚ)
  | _, [] => ([], [])
  | 0, l => (l, [])
  | fuel + 1, b :: tl =>
    if b.active = true then
      let r := sweepInner b tl
      let s := sweepOuter fuel r.2.1
      (r.1 :: s.1, r.2.2 ++ s.2)
    else
      let s := sweepOuter fuel tl
      (b :: s.1, s.2)

/-- `BulletManager.update_bullet_collisions`: resolves mutual projectile
collisions over the whole list, returning the updated list and the emitted
explosions. -/
def updateBulletCollisions (bullets : List Bullet) :
    List Bullet × List (ℚ × ℚ) :=
  sweepOuter bullets.length bullets

/-! ## Claim C1 -/

/-- The failing input for C1: an otherwise empty in-bounds map holding a Steel
tile at cell (5, 5). -/
def steelMap : MapState :=
  ⟨fun a b => if a = 5 ∧ b = 5 then TILE_STEEL else TILE_EMPTY, []⟩

/-- The failing input for C1: an active Super-power projectile whose Euler step
lands at pixel (88, 88), i.e. inside cell (5, 5). -/
def superBullet : Bullet := mkBullet 86 88 RIGHT BULLET_SPEED TANK_PLAYER POWER_SUPER

/-- C1 (code bug, evaluated at the failing input): a Super projectile landing
in a Steel cell is recognised as a destructible-tile hit
(`can_destroy` at POWER_SUPER holds) and is deactivated, but
`schedule_tile_destruction` re-checks destructibility at the defaulted
POWER_NORMAL tier, so the scheduling call returns false, nothing is enqueued,
and the cell still holds Steel after the fixed 24-frame delay has elapsed —
the claim (and the documented intent that POWER_SUPER destroys steel) says the
call returns true and the cell ends Empty. -/
theorem super_bullet_steel_never_destroyed :
    canDestroy steelMap 5 5 POWER_SUPER = true ∧
    canDestroy steelMap 5 5 POWER_NORMAL = false ∧
    (scheduleTileDestruction steelMap 5 5 DELAYED_DESTRUCTION_FRAMES).2 = false ∧
    (bulletUpdate superBullet steelMap).bullet.active = false ∧
    (bulletUpdate superBullet steelMap).map.delayed = [] ∧
    getTile (tickMap^[24] (bulletUpdate superBullet steelMap).map) 5 5 =
      TILE_STEEL := by
  have hmap : (bulletUpdate superBullet steelMap).map = steelMap := by
    norm_num [bulletUpdate, superBullet, mkBullet, directionVector,
      bulletOutOfBounds, pixelToGrid, ratTrunc, canDestroy, getTile, steelMap,
      inBounds, scheduleTileDestruction, TILE_BRICK, TILE_STEEL, TILE_EMPTY,
      TILE_BASE, POWER_SUPER, POWER_NORMAL, MAP_WIDTH, MAP_HEIGHT,
      SCREEN_WIDTH, TILE_SIZE, RIGHT, UP, DOWN, LEFT, TANK_PLAYER, BULLET_SPEED]
  refine ⟨by decide, by decide, ?_, ?_, ?_, ?_⟩
  · norm_num [scheduleTileDestruction, canDestroy, getTile, steelMap, inBounds,
      TILE_BRICK, TILE_STEEL, TILE_EMPTY, TILE_BASE, POWER_SUPER, POWER_NORMAL,
      MAP_WIDTH, MAP_HEIGHT]
  · norm_num [bulletUpdate, superBullet, mkBullet, directionVector,
      bulletOutOfBounds, pixelToGrid, ratTrunc, canDestroy, getTile, steelMap,
      inBounds, scheduleTileDestruction, TILE_BRICK, TILE_STEEL, TILE_EMPTY,
      TILE_BASE, POWER_SUPER, POWER_NORMAL, MAP_WIDTH, MAP_HEIGHT,
      SCREEN_WIDTH, TILE_SIZE, RIGHT, UP, DOWN, LEFT, TANK_PLAYER, BULLET_SPEED]
  · rw [hmap]; rfl
  · rw [hmap, Function.iterate_fixed (show tickMap steelMap = steelMap from rfl)]
    decide

/-! ## Claim C2 -/

/-- Helper: a same-owner `bullet1` never resolves against a uniformly-owned
tail, so the inner sweep is the identity. -/
theorem sweepInner_uniform_owner (c : Nat) (b1 : Bullet) (rest : List Bullet)
    (h1 : b1.owner_type = c) (h : ∀ b ∈ rest, b.owner_type = c) :
    sweepInner b1 rest = (b1, rest, []) := by
  induction rest with
  | nil => rfl
  | cons b2 tl ih =>
    have hb2 : b2.owner_type = c := h b2 (by simp)
    have htl : ∀ b ∈ tl, b.owner_type = c := fun b hb => h b (by simp [hb])
    unfold sweepInner
    rw [if_neg]
    · rw [ih htl]
    · rintro ⟨-, hne, -⟩
      exact hne (h1.trans hb2.symm)

/-- Helper: on a list whose bullets all share one owner, the whole collision
pass changes nothing and emits no explosion (for any fuel). -/
theorem sweepOuter_uniform_owner (c : Nat) (fuel : Nat) (l : List Bullet)
    (h : ∀ b ∈ l, b.owner_type = c) :
    sweepOuter fuel l = (l, []) := by
  induction fuel generalizing l with
  | zero => cases l <;> rfl
  | succ k ih =>
    cases l with
    | nil => rfl
    | cons b tl =>
      have hb : b.owner_type = c := h b (by simp)
      have htl : ∀ x ∈ tl, x.owner_type = c := fun x hx => h x (by simp [hx])
      show sweepOuter (k + 1) (b :: tl) = (b :: tl, [])
      unfold sweepOuter
      by_cases hact : b.active = true
      · rw [if_pos hact, sweepInner_uniform_owner c b tl hb htl]
        simp only [ih tl htl]
        rfl
      · rw [if_neg hact]
        simp only [ih tl htl]

/-- C2 counterexample input: a player projectile overlapping two light-tank
projectiles, all at pixel (10, 10). -/
def cexBullets : List Bullet :=
  [mkBullet 10 10 RIGHT BULLET_SPEED TANK_PLAYER POWER_NORMAL,
   mkBullet 10 10 UP BULLET_SPEED TANK_LIGHT POWER_NORMAL,
   mkBullet 10 10 DOWN BULLET_SPEED TANK_LIGHT POWER_NORMAL]

/-- C2 counterexample: with three mutually overlapping projectiles (one player,
two enemy), the pass resolves the player projectile twice — after the first
resolution deactivates it, it is matched again with the second enemy
projectile, so two explosions are emitted and all three projectiles end
inactive, contradicting the claim that a projectile deactivated by one
resolution is never matched again in the same pass (which would leave the
third projectile active and emit one explosion). -/
theorem deactivated_bullet_rematched_counterexample :
    (updateBulletCollisions cexBullets).2.length = 2 ∧
    (updateBulletCollisions cexBullets).1.all (fun b => !b.active) = true := by
  norm_num [updateBulletCollisions, cexBullets, sweepOuter, sweepInner,
    checkBulletCollision, rectsOverlap, bulletRect, bulletCollisionPoint,
    ratTrunc, mkBullet, directionVector, UP, DOWN, RIGHT, TANK_PLAYER,
    TANK_LIGHT, POWER_NORMAL, BULLET_SPEED, List.all]

/-- C2 (amended): same-owner projectiles never interact — a pass over a list
of projectiles sharing one owner changes nothing and emits no explosion — and
an overlapping pair with differing owners is resolved exactly once: both are
deactivated and exactly one explosion is emitted at the pair's midpoint. A
projectile deactivated as the inner (second) element of a resolution is
skipped for the rest of the pass, but the outer (first) projectile of a
resolution can still be matched with later projectiles in the same sweep, one
further explosion per such match. -/
theorem bullet_mutual_collision_resolution (c : Nat) (l : List Bullet)
    (b1 b2 : Bullet) (h1 : b1.active = true) (h2 : b2.active = true) :
    ((∀ b ∈ l, b.owner_type = c) → updateBulletCollisions l = (l, [])) ∧
    (b1.owner_type ≠ b2.owner_type → checkBulletCollision b1 b2 = true →
      updateBulletCollisions [b1, b2] =
        ([{ b1 with active := false }, { b2 with active := false }],
         [bulletCollisionPoint b1 b2])) := by
  constructor
  · intro h
    exact sweepOuter_uniform_owner c l.length l h
  · intro hne hcol
    show sweepOuter 2 [b1, b2] = _
    rw [show (2 : Nat) = 1 + 1 from rfl]
    unfold sweepOuter
    rw [if_pos h1]
    unfold sweepInner
    rw [if_pos ⟨h2, hne, hcol⟩]
    rfl

/-- The amended C2 statement applied to two concrete overlapping projectiles
with different owners (and a concrete uniformly-owned list). -/
theorem bullet_mutual_collision_resolution_witness :
    ((∀ b ∈ [mkBullet 40 40 UP 2 TANK_LIGHT POWER_NORMAL,
             mkBullet 40 40 DOWN 2 TANK_LIGHT POWER_NORMAL],
        b.owner_type = TANK_LIGHT) →
      updateBulletCollisions
        [mkBullet 40 40 UP 2 TANK_LIGHT POWER_NORMAL,
         mkBullet 40 40 DOWN 2 TANK_LIGHT POWER_NORMAL] =
        ([mkBullet 40 40 UP 2 TANK_LIGHT POWER_NORMAL,
          mkBullet 40 40 DOWN 2 TANK_LIGHT POWER_NORMAL], [])) ∧
    ((mkBullet 20 30 RIGHT 2 TANK_PLAYER POWER_NORMAL).owner_type ≠
        (mkBullet 21 30 LEFT 2 TANK_LIGHT POWER_NORMAL).owner_type →
      checkBulletCollision (mkBullet 20 30 RIGHT 2 TANK_PLAYER POWER_NORMAL)
        (mkBullet 21 30 LEFT 2 TANK_LIGHT POWER_NORMAL) = true →
      updateBulletCollisions
        [mkBullet 20 30 RIGHT 2 TANK_PLAYER POWER_NORMAL,
         mkBullet 21 30 LEFT 2 TANK_LIGHT POWER_NORMAL] =
        ([{ mkBullet 20 30 RIGHT 2 TANK_PLAYER POWER_NORMAL with active := false },
          { mkBullet 21 30 LEFT 2 TANK_LIGHT POWER_NORMAL with active := false }],
         [bulletCollisionPoint (mkBullet 20 30 RIGHT 2 TANK_PLAYER POWER_NORMAL)
            (mkBullet 21 30 LEFT 2 TANK_LIGHT POWER_NORMAL)])) :=
  bullet_mutual_collision_resolution TANK_LIGHT
    [mkBullet 40 40 UP 2 TANK_LIGHT POWER_NORMAL,
     mkBullet 40 40 DOWN 2 TANK_LIGHT POWER_NORMAL]
    (mkBullet 20 30 RIGHT 2 TANK_PLAYER POWER_NORMAL)
    (mkBullet 21 30 LEFT 2 TANK_LIGHT POWER_NORMAL) rfl rfl

/-! ## Tank separation (collision.py `CollisionManager._resolve_tank_collision`) -/

/-- A tank as the separation resolver sees it: its pixel position (the player
and enemy classes both expose `x`, `y` floats and a TILE_SIZE-square
`get_rect`). -/
structure Tank where
  x : ℚ
  y : ℚ
deriving DecidableEq, Repr

/-- `Player.get_rect` / `Enemy.get_rect`: `(int(x), int(y), TILE_SIZE, TILE_SIZE)`. -/
def tankRect (t : Tank) : Rect :=
  ⟨ratTrunc t.x, ratTrunc t.y, TILE_SIZE, TILE_SIZE⟩

/-- The rectangle centres computed in `_resolve_tank_collision`
(`x + w // 2`, `y + h // 2` on the integer rect). -/
def tankCenter (t : Tank) : ℤ × ℤ :=
  ((tankRect t).x + Int.fdiv (tankRect t).w 2,
   (tankRect t).y + Int.fdiv (tankRect t).h 2)

/-- The push step of `_resolve_tank_collision`: along the axis of larger
centre-to-centre displacement (vertical on ties), place tank1 exactly one tile
width to the appropriate side of tank2. -/
def separationPush (t1 t2 : Tank) : Tank :=
  if |(tankCenter t1).1 - (tankCenter t2).1| >
      |(tankCenter t1).2 - (tankCenter t2).2| then
    if (tankCenter t1).1 - (tankCenter t2).1 > 0 then
      { t1 with x := t2.x + (TILE_SIZE : ℚ) }
    else
      { t1 with x := t2.x - (TILE_SIZE : ℚ) }
  else
    if (tankCenter t1).2 - (tankCenter t2).2 > 0 then
      { t1 with y := t2.y + (TILE_SIZE : ℚ) }
    else
      { t1 with y := t2.y - (TILE_SIZE : ℚ) }

/-- The clamp step of `_resolve_tank_collision`:
`max(0, min(x, SCREEN_WIDTH - TILE_SIZE))` and
`max(0, min(y, MAP_HEIGHT*TILE_SIZE - TILE_SIZE))`. -/
def clampTank (t : Tank) : Tank :=
  { x := max 0 (min t.x ((SCREEN_WIDTH - TILE_SIZE : ℤ) : ℚ)),
    y := max 0 (min t.y ((MAP_HEIGHT * TILE_SIZE - TILE_SIZE : ℤ) : ℚ)) }

/-- `CollisionManager._resolve_tank_collision`: push, then clamp to the
playfield. -/
def resolveTankCollision (t1 t2 : Tank) : Tank :=
  clampTank (separationPush t1 t2)

/-! ## Claim C5 -/

/-- C5 counterexample: a player and an enemy both at pixel (100, 0) overlap;
the tie on both axes selects the vertical push upward, the pushed y = -16 is
clamped back to 0, and the two rectangles still overlap after resolution —
the claim that resolution always ends non-overlapping is false when the clamp
binds. -/
theorem tank_separation_overlap_counterexample :
    rectsOverlap (tankRect ⟨100, 0⟩) (tankRect ⟨100, 0⟩) = true ∧
    resolveTankCollision ⟨100, 0⟩ ⟨100, 0⟩ = (⟨100, 0⟩ : Tank) ∧
    rectsOverlap (tankRect (resolveTankCollision ⟨100, 0⟩ ⟨100, 0⟩))
      (tankRect ⟨100, 0⟩) = true := by
  refine ⟨by norm_num [rectsOverlap, tankRect, ratTrunc, TILE_SIZE], ?_, ?_⟩
  · norm_num [resolveTankCollision, separationPush, clampTank, tankCenter,
      tankRect, ratTrunc, TILE_SIZE, SCREEN_WIDTH, MAP_HEIGHT]
  · norm_num [resolveTankCollision, separationPush, clampTank, tankCenter,
      tankRect, rectsOverlap, ratTrunc, TILE_SIZE, SCREEN_WIDTH, MAP_HEIGHT]

/-- Helper: truncation toward zero commutes with adding one tile width on
nonnegative coordinates. -/
theorem ratTrunc_add_tile (q : ℚ) (h : 0 ≤ q) :
    ratTrunc (q + 16) = ratTrunc q + 16 := by
  unfold ratTrunc
  rw [if_pos h, if_pos (by linarith)]
  rw [show (16 : ℚ) = ((16 : ℤ) : ℚ) by norm_num, Int.floor_add_int]

/-- Helper: truncation toward zero commutes with subtracting one tile width
when the result stays nonnegative. -/
theorem ratTrunc_sub_tile (q : ℚ) (h : (16 : ℚ) ≤ q) :
    ratTrunc (q - 16) = ratTrunc q - 16 := by
  unfold ratTrunc
  rw [if_pos (by linarith), if_pos (by linarith)]
  rw [show (16 : ℚ) = ((16 : ℤ) : ℚ) by norm_num, Int.floor_sub_int]

/-- Helper: the push step changes exactly one coordinate, placing it one tile
width from the enemy's coordinate on that axis. -/
theorem separationPush_cases (t1 t2 : Tank) :
    ((separationPush t1 t2).y = t1.y ∧
      ((separationPush t1 t2).x = t2.x + 16 ∨
       (separationPush t1 t2).x = t2.x - 16)) ∨
    ((separationPush t1 t2).x = t1.x ∧
      ((separationPush t1 t2).y = t2.y + 16 ∨
       (separationPush t1 t2).y = t2.y - 16)) := by
  unfold separationPush
  split
  · split
    · exact Or.inl ⟨rfl, Or.inl (by norm_num [TILE_SIZE])⟩
    · exact Or.inl ⟨rfl, Or.inr (by norm_num [TILE_SIZE])⟩
  · split
    · exact Or.inr ⟨rfl, Or.inl (by norm_num [TILE_SIZE])⟩
    · exact Or.inr ⟨rfl, Or.inr (by norm_num [TILE_SIZE])⟩

/-- C5 (amended): on an overlapping (player, enemy) pair with the enemy inside
the playfield, the resolution pushes the player exactly one tile width from
the enemy along the axis of larger centre-to-centre displacement and then
clamps to the playfield; whenever the pushed position is itself within the
playfield bounds (the clamp does not bind — the counterexample shows overlap
can survive when it does), the resolved position equals the pushed position,
lies within `[0, 240] × [0, 208]`, and the player's rectangle no longer
overlaps the enemy's. -/
theorem tank_separation_resolution (t1 t2 : Tank)
    (hcol : rectsOverlap (tankRect t1) (tankRect t2) = true)
    (h2x : 0 ≤ t2.x) (h2y : 0 ≤ t2.y)
    (hpx : 0 ≤ (separationPush t1 t2).x ∧
      (separationPush t1 t2).x ≤ ((SCREEN_WIDTH - TILE_SIZE : ℤ) : ℚ))
    (hpy : 0 ≤ (separationPush t1 t2).y ∧
      (separationPush t1 t2).y ≤ ((MAP_HEIGHT * TILE_SIZE - TILE_SIZE : ℤ) : ℚ)) :
    resolveTankCollision t1 t2 = separationPush t1 t2 ∧
    (0 ≤ (resolveTankCollision t1 t2).x ∧
      (resolveTankCollision t1 t2).x ≤ ((SCREEN_WIDTH - TILE_SIZE : ℤ) : ℚ)) ∧
    (0 ≤ (resolveTankCollision t1 t2).y ∧
      (resolveTankCollision t1 t2).y ≤ ((MAP_HEIGHT * TILE_SIZE - TILE_SIZE : ℤ) : ℚ)) ∧
    rectsOverlap (tankRect (resolveTankCollision t1 t2)) (tankRect t2) =
      false := by
  have hres : resolveTankCollision t1 t2 = separationPush t1 t2 := by
    unfold resolveTankCollision clampTank
    have hx : max 0 (min (separationPush t1 t2).x
        ((SCREEN_WIDTH - TILE_SIZE : ℤ) : ℚ)) = (separationPush t1 t2).x := by
      rw [min_eq_left hpx.2, max_eq_right hpx.1]
    have hy : max 0 (min (separationPush t1 t2).y
        ((MAP_HEIGHT * TILE_SIZE - TILE_SIZE : ℤ) : ℚ)) = (separationPush t1 t2).y := by
      rw [min_eq_left hpy.2, max_eq_right hpy.1]
    rw [hx, hy]
  refine ⟨hres, by rw [hres]; exact hpx, by rw [hres]; exact hpy, ?_⟩
  rw [hres]
  unfold rectsOverlap
  rw [decide_eq_false_iff_not]
  rintro ⟨hA, hB, hC, hD⟩
  rcases separationPush_cases t1 t2 with ⟨-, hx | hx⟩ | ⟨-, hy | hy⟩
  · rw [show (tankRect (separationPush t1 t2)).x =
        ratTrunc (separationPush t1 t2).x from rfl, hx,
      ratTrunc_add_tile t2.x h2x] at hA
    simp only [tankRect, TILE_SIZE] at hA
    omega
  · have h16 : (16 : ℚ) ≤ t2.x := by
      have := hpx.1
      rw [hx] at this
      linarith
    rw [show (tankRect (separationPush t1 t2)).x =
        ratTrunc (separationPush t1 t2).x from rfl, hx,
      ratTrunc_sub_tile t2.x h16] at hB
    simp only [tankRect, TILE_SIZE] at hB
    omega
  · rw [show (tankRect (separationPush t1 t2)).y =
        ratTrunc (separationPush t1 t2).y from rfl, hy,
      ratTrunc_add_tile t2.y h2y] at hC
    simp only [tankRect, TILE_SIZE] at hC
    omega
  · have h16 : (16 : ℚ) ≤ t2.y := by
      have := hpy.1
      rw [hy] at this
      linarith
    rw [show (tankRect (separationPush t1 t2)).y =
        ratTrunc (separationPush t1 t2).y from rfl, hy,
      ratTrunc_sub_tile t2.y h16] at hD
    simp only [tankRect, TILE_SIZE] at hD
    omega

/-- The amended separation statement at a concrete overlapping pair: player at
(90, 80), enemy at (80, 80); the push lands in bounds at (96, 80) and the
rectangles no longer overlap. -/
theorem tank_separation_resolution_witness :
    resolveTankCollision ⟨90, 80⟩ ⟨80, 80⟩ = separationPush ⟨90, 80⟩ ⟨80, 80⟩ ∧
    (0 ≤ (resolveTankCollision ⟨90, 80⟩ ⟨80, 80⟩).x ∧
      (resolveTankCollision ⟨90, 80⟩ ⟨80, 80⟩).x ≤ ((SCREEN_WIDTH - TILE_SIZE : ℤ) : ℚ)) ∧
    (0 ≤ (resolveTankCollision ⟨90, 80⟩ ⟨80, 80⟩).y ∧
      (resolveTankCollision ⟨90, 80⟩ ⟨80, 80⟩).y ≤ ((MAP_HEIGHT * TILE_SIZE - TILE_SIZE : ℤ) : ℚ)) ∧
    rectsOverlap (tankRect (resolveTankCollision ⟨90, 80⟩ ⟨80, 80⟩))
      (tankRect ⟨80, 80⟩) = false :=
  tank_separation_resolution ⟨90, 80⟩ ⟨80, 80⟩
    (by norm_num [rectsOverlap, tankRect, ratTrunc, TILE_SIZE])
    (by norm_num) (by norm_num)
    (by norm_num [separationPush, tankCenter, tankRect, ratTrunc, TILE_SIZE,
      SCREEN_WIDTH])
    (by norm_num [separationPush, tankCenter, tankRect, ratTrunc, TILE_SIZE,
      MAP_HEIGHT])

/-! ## Player (player.py `Player`) -/

/-- The player-tank state the embedded operations touch (`Player.__init__`'s
position, facing, power level, lives and invulnerability countdown). -/
structure PlayerState where
  x : ℚ
  y : ℚ
  direction : Nat
  power_level : Nat
  lives : ℤ
  invincible_timer : ℤ
deriving DecidableEq, Repr

/-- `Player.can_fire`: counts the player-owned projectiles in the given list;
double/super may have two live projectiles, normal/fast only one. -/
def canFire (p : PlayerState) (bullets : List Bullet) : Bool :=
  if POWER_DOUBLE_SHOT ≤ p.power_level then
    decide ((bullets.filter fun b => decide (b.owner_type = TANK_PLAYER)).length < 2)
  else
    decide ((bullets.filter fun b => decide (b.owner_type = TANK_PLAYER)).length < 1)

/-- `Player.fire`: a bullet at the facing-direction muzzle offset from the
tank-centre default, with tier-derived speed, owned by the player. -/
def playerFire (p : PlayerState) : Bullet :=
  let bx : ℚ :=
    if p.direction = LEFT then p.x
    else if p.direction = RIGHT then p.x + (TILE_SIZE : ℚ)
    else p.x + ((Int.fdiv TILE_SIZE 2 : ℤ) : ℚ)
  let fy : ℚ :=
    if p.direction = UP then p.y
    else if p.direction = DOWN then p.y + (TILE_SIZE : ℚ)
    else p.y + ((Int.fdiv TILE_SIZE 2 : ℤ) : ℚ)
  let speed : ℤ :=
    if POWER_FAST_SHOT ≤ p.power_level then BULLET_SPEED * 2 else BULLET_SPEED
  mkBullet bx fy p.direction speed TANK_PLAYER p.power_level

/-- The firing gate as the session controller runs it
(`game_manager._handle_shooting`): create and append the bullet only when
`can_fire` holds on the live list. -/
def playerFireStep (p : PlayerState) (bullets : List Bullet) : List Bullet :=
  if canFire p bullets then bullets ++ [playerFire p] else bullets

/-- The spec's per-tier cap on simultaneous projectiles
(POWER_BULLET_LIMITS: normal/fast 1, double/super 2). -/
def powerBulletLimit (power : Nat) : Nat :=
  if POWER_DOUBLE_SHOT ≤ power then 2 else 1

/-- The player's live projectiles: active and player-owned. -/
def activePlayerBulletCount (bullets : List Bullet) : Nat :=
  (bullets.filter fun b =>
    decide (b.active = true ∧ b.owner_type = TANK_PLAYER)).length

/-- Helper: on a list of all-active projectiles, the gate's owner-only count
agrees with the active-and-owner count. -/
theorem activeCount_eq_ownerCount (bullets : List Bullet)
    (hact : ∀ b ∈ bullets, b.active = true) :
    activePlayerBulletCount bullets =
      (bullets.filter fun b => decide (b.owner_type = TANK_PLAYER)).length := by
  unfold activePlayerBulletCount
  have hfilter : List.filter
      (fun b => decide (b.active = true ∧ b.owner_type = TANK_PLAYER)) bullets =
      List.filter (fun b => decide (b.owner_type = TANK_PLAYER)) bullets := by
    apply List.filter_congr
    intro x hx
    rw [hact x hx]
    simp
  rw [hfilter]

/-- C6: on a purged list (every listed projectile active), the firing gate
permits firing exactly when the player's own active-projectile count is below
the tier cap (1 below Double, 2 for Double/Super), and one gated fire step
keeps the count at or below the cap — so a player below Double never exceeds 1
live projectile and one at Double/Super never exceeds 2. -/
theorem player_fire_cap (p : PlayerState) (bullets : List Bullet)
    (hact : ∀ b ∈ bullets, b.active = true)
    (hinv : activePlayerBulletCount bullets ≤ powerBulletLimit p.power_level) :
    (canFire p bullets = true ↔
      activePlayerBulletCount bullets < powerBulletLimit p.power_level) ∧
    activePlayerBulletCount (playerFireStep p bullets) ≤
      powerBulletLimit p.power_level ∧
    (p.power_level < POWER_DOUBLE_SHOT →
      activePlayerBulletCount (playerFireStep p bullets) ≤ 1) ∧
    (POWER_DOUBLE_SHOT ≤ p.power_level →
      activePlayerBulletCount (playerFireStep p bullets) ≤ 2) := by
  have hcount := activeCount_eq_ownerCount bullets hact
  have hiff : canFire p bullets = true ↔
      activePlayerBulletCount bullets < powerBulletLimit p.power_level := by
    unfold canFire powerBulletLimit
    by_cases hp : POWER_DOUBLE_SHOT ≤ p.power_level
    · simp only [hp, if_true, decide_eq_true_eq, hcount]
    · simp only [hp, if_false, decide_eq_true_eq, hcount]
  have hstep : activePlayerBulletCount (playerFireStep p bullets) ≤
      powerBulletLimit p.power_level := by
    unfold playerFireStep
    by_cases hc : canFire p bullets = true
    · rw [if_pos hc]
      have hlt := hiff.mp hc
      have hnew : activePlayerBulletCount (bullets ++ [playerFire p]) =
          activePlayerBulletCount bullets + 1 := by
        unfold activePlayerBulletCount
        rw [List.filter_append, List.length_append]
        norm_num [playerFire, mkBullet]
      omega
    · rw [if_neg hc]
      exact hinv
  refine ⟨hiff, hstep, ?_, ?_⟩
  · intro hlow
    have : powerBulletLimit p.power_level = 1 := by
      unfold powerBulletLimit
      rw [if_neg (by omega)]
    omega
  · intro hhigh
    have : powerBulletLimit p.power_level = 2 := by
      unfold powerBulletLimit
      rw [if_pos hhigh]
    omega

/-- The firing-cap theorem at a concrete player (normal tier, no live
projectiles): the gate opens and a fire step stays within the cap. -/
theorem player_fire_cap_witness :
    (canFire ⟨112, 176, UP, POWER_NORMAL, 3, 0⟩ [] = true ↔
      activePlayerBulletCount [] <
        powerBulletLimit (⟨112, 176, UP, POWER_NORMAL, 3, 0⟩ : PlayerState).power_level) ∧
    activePlayerBulletCount
        (playerFireStep ⟨112, 176, UP, POWER_NORMAL, 3, 0⟩ []) ≤
      powerBulletLimit (⟨112, 176, UP, POWER_NORMAL, 3, 0⟩ : PlayerState).power_level ∧
    ((⟨112, 176, UP, POWER_NORMAL, 3, 0⟩ : PlayerState).power_level <
        POWER_DOUBLE_SHOT →
      activePlayerBulletCount
          (playerFireStep ⟨112, 176, UP, POWER_NORMAL, 3, 0⟩ []) ≤ 1) ∧
    (POWER_DOUBLE_SHOT ≤
        (⟨112, 176, UP, POWER_NORMAL, 3, 0⟩ : PlayerState).power_level →
      activePlayerBulletCount
          (playerFireStep ⟨112, 176, UP, POWER_NORMAL, 3, 0⟩ []) ≤ 2) :=
  player_fire_cap ⟨112, 176, UP, POWER_NORMAL, 3, 0⟩ []
    (by intro b hb; cases hb) (by decide)

/-- `Player.take_damage`: damage is ignored while the invulnerability
countdown runs; otherwise lose one life, restart the 120-frame countdown,
reset the power tier, and report defeat exactly when lives reach ≤ 0. -/
def takeDamage (p : PlayerState) : PlayerState × Bool :=
  if 0 < p.invincible_timer then (p, false)
  else if p.lives - 1 ≤ 0 then
    ({ p with
        lives := p.lives - 1
        invincible_timer := 120
        power_level := POWER_NORMAL }, true)
  else
    ({ p with
        lives := p.lives - 1
        invincible_timer := 120
        power_level := POWER_NORMAL }, false)

/-- The enemy-bullet collision path's guard around `take_damage`
(collision.py tests `player.lives > 0` before dealing damage). -/
def damageIfAlive (p : PlayerState) : PlayerState × Bool :=
  if 0 < p.lives then takeDamage p else (p, false)

/-- C8: while the invulnerability countdown is positive, taking damage returns
not-defeated and changes nothing; at countdown 0 (on a live player, as the
collision path guarantees), it decrements lives, resets the power tier,
restarts the countdown at 120, reports defeat exactly when lives reach 0, and
lives never drop below 0 — the guarded damage path keeps lives nonnegative. -/
theorem player_take_damage (p : PlayerState) :
    (0 < p.invincible_timer → takeDamage p = (p, false)) ∧
    (p.invincible_timer = 0 → 1 ≤ p.lives →
      (takeDamage p).1.lives = p.lives - 1 ∧
      (takeDamage p).1.power_level = POWER_NORMAL ∧
      (takeDamage p).1.invincible_timer = 120 ∧
      ((takeDamage p).2 = true ↔ (takeDamage p).1.lives = 0) ∧
      0 ≤ (takeDamage p).1.lives) ∧
    (0 ≤ p.lives → 0 ≤ (damageIfAlive p).1.lives) := by
  refine ⟨?_, ?_, ?_⟩
  · intro hinv
    unfold takeDamage
    rw [if_pos hinv]
  · intro htimer hlives
    unfold takeDamage
    rw [if_neg (by omega)]
    by_cases hz : p.lives - 1 ≤ 0
    · rw [if_pos hz]
      refine ⟨rfl, rfl, rfl, ?_, ?_⟩
      · constructor
        · intro
          show p.lives - 1 = 0
          omega
        · intro
          rfl
      · show 0 ≤ p.lives - 1
        omega
    · rw [if_neg hz]
      refine ⟨rfl, rfl, rfl, ?_, ?_⟩
      · constructor
        · intro hfalse
          cases hfalse
        · intro hzero
          have : p.lives - 1 = 0 := hzero
          omega
      · show 0 ≤ p.lives - 1
        omega
  · intro hnn
    unfold damageIfAlive
    by_cases halive : 0 < p.lives
    · rw [if_pos halive]
      unfold takeDamage
      by_cases hinv : 0 < p.invincible_timer
      · rw [if_pos hinv]; exact hnn
      · rw [if_neg hinv]
        by_cases hz : p.lives - 1 ≤ 0
        · rw [if_pos hz]
          show 0 ≤ p.lives - 1
          omega
        · rw [if_neg hz]
          show 0 ≤ p.lives - 1
          omega
    · rw [if_neg halive]
      exact hnn

/-- The damage rules evaluated at a concrete live player with countdown 0 and
one life: defeat is reported, lives end at 0, power resets, countdown
restarts. -/
theorem player_take_damage_witness :
    (0 < (⟨112, 176, UP, POWER_SUPER, 1, 0⟩ : PlayerState).invincible_timer →
      takeDamage ⟨112, 176, UP, POWER_SUPER, 1, 0⟩ =
        (⟨112, 176, UP, POWER_SUPER, 1, 0⟩, false)) ∧
    ((⟨112, 176, UP, POWER_SUPER, 1, 0⟩ : PlayerState).invincible_timer = 0 →
      1 ≤ (⟨112, 176, UP, POWER_SUPER, 1, 0⟩ : PlayerState).lives →
      (takeDamage ⟨112, 176, UP, POWER_SUPER, 1, 0⟩).1.lives =
        (⟨112, 176, UP, POWER_SUPER, 1, 0⟩ : PlayerState).lives - 1 ∧
      (takeDamage ⟨112, 176, UP, POWER_SUPER, 1, 0⟩).1.power_level =
        POWER_NORMAL ∧
      (takeDamage ⟨112, 176, UP, POWER_SUPER, 1, 0⟩).1.invincible_timer = 120 ∧
      ((takeDamage ⟨112, 176, UP, POWER_SUPER, 1, 0⟩).2 = true ↔
        (takeDamage ⟨112, 176, UP, POWER_SUPER, 1, 0⟩).1.lives = 0) ∧
      0 ≤ (takeDamage ⟨112, 176, UP, POWER_SUPER, 1, 0⟩).1.lives) ∧
    (0 ≤ (⟨112, 176, UP, POWER_SUPER, 1, 0⟩ : PlayerState).lives →
      0 ≤ (damageIfAlive ⟨112, 176, UP, POWER_SUPER, 1, 0⟩).1.lives) :=
  player_take_damage ⟨112, 176, UP, POWER_SUPER, 1, 0⟩

/-! ## Enemies (enemy.py `Enemy`, `EnemyManager`) -/

/-- An enemy tank, mirroring `Enemy.__init__`'s attributes. -/
structure EnemyE where
  x : ℚ
  y : ℚ
  enemy_type : Nat
  direction : Nat
  health : ℤ
  active : Bool
  move_timer : ℤ
  target_x : ℚ
  target_y : ℚ
  is_moving : Bool
  ai_timer : ℤ
  fire_timer : ℤ
  change_direction_timer : ℤ
  carries_item : Bool
  item_type : Option Nat
deriving DecidableEq, Repr

/-- `Enemy.__init__` with its random draws made explicit: `rdir` indexes
`random.choice([UP, DOWN, LEFT, RIGHT])`, `rtimer` is the
`randint(AI_DIRECTION_CHANGE_MIN, AI_DIRECTION_CHANGE_MAX)` draw, and
`ritem`/`rpick` drive `_initialize_item_carrier` — the enemy carries an item
exactly when the uniform draw `ritem` falls below ITEM_CARRIER_PROBABILITY,
and then `rpick` indexes `random.choice` over the six item kinds. -/
def mkEnemy (x y : ℚ) (etype : Nat) (rdir : Nat) (rtimer : ℤ) (ritem : ℚ)
    (rpick : Nat) : EnemyE :=
  { x := x, y := y, enemy_type := etype,
    direction := [UP, DOWN, LEFT, RIGHT].getD (rdir % 4) UP,
    health := enemyHealth etype, active := true,
    move_timer := 0, target_x := x, target_y := y, is_moving := false,
    ai_timer := 0, fire_timer := 0, change_direction_timer := rtimer,
    carries_item := decide (ritem < ITEM_CARRIER_PROBABILITY),
    item_type :=
      if ritem < ITEM_CARRIER_PROBABILITY then
        some ([ITEM_STAR, ITEM_GRENADE, ITEM_TANK, ITEM_SHOVEL, ITEM_CLOCK,
          ITEM_HELMET].getD (rpick % 6) ITEM_STAR)
      else none }

/-- The `EnemyManager` state the spawn path touches. -/
structure SpawnState where
  enemies : List EnemyE
  spawn_queue : List Nat
  spawn_timer : ℤ
  enemies_spawned : ℤ
  spawn_fog_active : Bool
  spawn_fog_timer : ℤ
  spawn_fog_current : ℤ
  spawn_fog_position : ℚ × ℚ
  pending_enemy_type : Option Nat

/-- `EnemyManager._reset_spawn_fog`. -/
def resetSpawnFog (s : SpawnState) : SpawnState :=
  { s with
      spawn_fog_active := false
      spawn_fog_timer := 0
      spawn_fog_current := 0
      pending_enemy_type := none }

/-- `EnemyManager._spawn_enemy` (telegraph completion): nothing pending resets
the fog; a filled population cap re-queues the pending archetype at the front;
otherwise the enemy is constructed at the fog position (with its item-carry
draws) and the spawned count is incremented. -/
def spawnEnemy (s : SpawnState) (rdir : Nat) (rtimer : ℤ) (ritem : ℚ)
    (rpick : Nat) : SpawnState :=
  match s.pending_enemy_type with
  | none => resetSpawnFog s
  | some t =>
    if MAX_ENEMIES_ON_SCREEN ≤ s.enemies.length then
      resetSpawnFog { s with spawn_queue := t :: s.spawn_queue }
    else
      resetSpawnFog { s with
        enemies := s.enemies ++
          [mkEnemy s.spawn_fog_position.1 s.spawn_fog_position.2 t rdir
            rtimer ritem rpick]
        enemies_spawned := s.enemies_spawned + 1 }

/-! ## Claim C7 -/

/-- C7: on telegraph completion with a pending archetype, the population cap
is re-checked: under the cap the archetype is instantiated (its probabilistic
item-carry flag set at construction by the uniform draw), appended, and the
spawned count incremented; at or over the cap the archetype goes back to the
front of the queue and no enemy is created — so a live-enemy count at or below
the cap (4) never ends above it. -/
theorem spawn_cap_recheck (s : SpawnState) (t : Nat) (rdir : Nat) (rtimer : ℤ)
    (ritem : ℚ) (rpick : Nat) (hp : s.pending_enemy_type = some t) :
    (s.enemies.length < MAX_ENEMIES_ON_SCREEN →
      (spawnEnemy s rdir rtimer ritem rpick).enemies =
        s.enemies ++ [mkEnemy s.spawn_fog_position.1 s.spawn_fog_position.2 t
          rdir rtimer ritem rpick] ∧
      (spawnEnemy s rdir rtimer ritem rpick).enemies_spawned =
        s.enemies_spawned + 1 ∧
      (spawnEnemy s rdir rtimer ritem rpick).spawn_queue = s.spawn_queue ∧
      (mkEnemy s.spawn_fog_position.1 s.spawn_fog_position.2 t rdir rtimer
        ritem rpick).carries_item =
        decide (ritem < ITEM_CARRIER_PROBABILITY)) ∧
    (MAX_ENEMIES_ON_SCREEN ≤ s.enemies.length →
      (spawnEnemy s rdir rtimer ritem rpick).enemies = s.enemies ∧
      (spawnEnemy s rdir rtimer ritem rpick).spawn_queue =
        t :: s.spawn_queue ∧
      (spawnEnemy s rdir rtimer ritem rpick).enemies_spawned =
        s.enemies_spawned) ∧
    (s.enemies.length ≤ MAX_ENEMIES_ON_SCREEN →
      (spawnEnemy s rdir rtimer ritem rpick).enemies.length ≤
        MAX_ENEMIES_ON_SCREEN) := by
  have hdisp : spawnEnemy s rdir rtimer ritem rpick =
      if MAX_ENEMIES_ON_SCREEN ≤ s.enemies.length then
        resetSpawnFog { s with spawn_queue := t :: s.spawn_queue }
      else
        resetSpawnFog { s with
          enemies := s.enemies ++
            [mkEnemy s.spawn_fog_position.1 s.spawn_fog_position.2 t rdir
              rtimer ritem rpick]
          enemies_spawned := s.enemies_spawned + 1 } := by
    unfold spawnEnemy
    rw [hp]
  refine ⟨?_, ?_, ?_⟩
  · intro hlt
    rw [hdisp, if_neg (Nat.not_le.mpr hlt)]
    exact ⟨rfl, rfl, rfl, rfl⟩
  · intro hge
    rw [hdisp, if_pos hge]
    exact ⟨rfl, rfl, rfl⟩
  · intro hle
    rw [hdisp]
    by_cases hcap : MAX_ENEMIES_ON_SCREEN ≤ s.enemies.length
    · rw [if_pos hcap]
      exact hle
    · rw [if_neg hcap]
      show (s.enemies ++ [_]).length ≤ MAX_ENEMIES_ON_SCREEN
      rw [List.length_append, List.length_singleton]
      unfold MAX_ENEMIES_ON_SCREEN at hcap ⊢
      omega

/-- The spawn re-check at a concrete state: three live enemies, a pending
light tank, a carrying item draw of 1/10. -/
theorem spawn_cap_recheck_witness :
    (([mkEnemy 0 0 TANK_LIGHT 0 60 1 0, mkEnemy 96 0 TANK_LIGHT 0 60 1 0,
        mkEnemy 192 0 TANK_LIGHT 0 60 1 0] : List EnemyE).length <
        MAX_ENEMIES_ON_SCREEN →
      (spawnEnemy ⟨[mkEnemy 0 0 TANK_LIGHT 0 60 1 0,
          mkEnemy 96 0 TANK_LIGHT 0 60 1 0, mkEnemy 192 0 TANK_LIGHT 0 60 1 0],
          [TANK_HEAVY], 0, 3, true, 0, 4, (96, 0), some TANK_ARMORED⟩
          2 90 (1/10) 3).enemies =
        [mkEnemy 0 0 TANK_LIGHT 0 60 1 0, mkEnemy 96 0 TANK_LIGHT 0 60 1 0,
          mkEnemy 192 0 TANK_LIGHT 0 60 1 0] ++
          [mkEnemy 96 0 TANK_ARMORED 2 90 (1/10) 3] ∧
      (spawnEnemy ⟨[mkEnemy 0 0 TANK_LIGHT 0 60 1 0,
          mkEnemy 96 0 TANK_LIGHT 0 60 1 0, mkEnemy 192 0 TANK_LIGHT 0 60 1 0],
          [TANK_HEAVY], 0, 3, true, 0, 4, (96, 0), some TANK_ARMORED⟩
          2 90 (1/10) 3).enemies_spawned = 3 + 1 ∧
      (spawnEnemy ⟨[mkEnemy 0 0 TANK_LIGHT 0 60 1 0,
          mkEnemy 96 0 TANK_LIGHT 0 60 1 0, mkEnemy 192 0 TANK_LIGHT 0 60 1 0],
          [TANK_HEAVY], 0, 3, true, 0, 4, (96, 0), some TANK_ARMORED⟩
          2 90 (1/10) 3).spawn_queue = [TANK_HEAVY] ∧
      (mkEnemy 96 0 TANK_ARMORED 2 90 (1/10) 3).carries_item =
        decide ((1/10 : ℚ) < ITEM_CARRIER_PROBABILITY)) ∧
    (MAX_ENEMIES_ON_SCREEN ≤
        ([mkEnemy 0 0 TANK_LIGHT 0 60 1 0, mkEnemy 96 0 TANK_LIGHT 0 60 1 0,
          mkEnemy 192 0 TANK_LIGHT 0 60 1 0] : List EnemyE).length →
      (spawnEnemy ⟨[mkEnemy 0 0 TANK_LIGHT 0 60 1 0,
          mkEnemy 96 0 TANK_LIGHT 0 60 1 0, mkEnemy 192 0 TANK_LIGHT 0 60 1 0],
          [TANK_HEAVY], 0, 3, true, 0, 4, (96, 0), some TANK_ARMORED⟩
          2 90 (1/10) 3).enemies =
        [mkEnemy 0 0 TANK_LIGHT 0 60 1 0, mkEnemy 96 0 TANK_LIGHT 0 60 1 0,
          mkEnemy 192 0 TANK_LIGHT 0 60 1 0] ∧
      (spawnEnemy ⟨[mkEnemy 0 0 TANK_LIGHT 0 60 1 0,
          mkEnemy 96 0 TANK_LIGHT 0 60 1 0, mkEnemy 192 0 TANK_LIGHT 0 60 1 0],
          [TANK_HEAVY], 0, 3, true, 0, 4, (96, 0), some TANK_ARMORED⟩
          2 90 (1/10) 3).spawn_queue = TANK_ARMORED :: [TANK_HEAVY] ∧
      (spawnEnemy ⟨[mkEnemy 0 0 TANK_LIGHT 0 60 1 0,
          mkEnemy 96 0 TANK_LIGHT 0 60 1 0, mkEnemy 192 0 TANK_LIGHT 0 60 1 0],
          [TANK_HEAVY], 0, 3, true, 0, 4, (96, 0), some TANK_ARMORED⟩
          2 90 (1/10) 3).enemies_spawned = 3) ∧
    (([mkEnemy 0 0 TANK_LIGHT 0 60 1 0, mkEnemy 96 0 TANK_LIGHT 0 60 1 0,
        mkEnemy 192 0 TANK_LIGHT 0 60 1 0] : List EnemyE).length ≤
        MAX_ENEMIES_ON_SCREEN →
      (spawnEnemy ⟨[mkEnemy 0 0 TANK_LIGHT 0 60 1 0,
          mkEnemy 96 0 TANK_LIGHT 0 60 1 0, mkEnemy 192 0 TANK_LIGHT 0 60 1 0],
          [TANK_HEAVY], 0, 3, true, 0, 4, (96, 0), some TANK_ARMORED⟩
          2 90 (1/10) 3).enemies.length ≤ MAX_ENEMIES_ON_SCREEN) :=
  spawn_cap_recheck
    ⟨[mkEnemy 0 0 TANK_LIGHT 0 60 1 0, mkEnemy 96 0 TANK_LIGHT 0 60 1 0,
      mkEnemy 192 0 TANK_LIGHT 0 60 1 0],
      [TANK_HEAVY], 0, 3, true, 0, 4, (96, 0), some TANK_ARMORED⟩
    TANK_ARMORED 2 90 (1/10) 3 rfl

/-! ## Enemy firing (enemy.py `Enemy._try_fire` and helpers) -/

/-- `Enemy._can_hit_target`: direct line alignment in the probed direction,
within AI_ATTACK_RANGE, with the correct sign of approach. -/
def canHitTarget (sx sy tx ty dx dy : ℤ) : Bool :=
  if dx ≠ 0 ∧ sy ≠ ty then false
  else if dy ≠ 0 ∧ sx ≠ tx then false
  else if dx > 0 ∧ tx > sx ∧ |tx - sx| ≤ AI_ATTACK_RANGE then true
  else if dx < 0 ∧ tx < sx ∧ |tx - sx| ≤ AI_ATTACK_RANGE then true
  else if dy > 0 ∧ ty > sy ∧ |ty - sy| ≤ AI_ATTACK_RANGE then true
  else if dy < 0 ∧ ty < sy ∧ |ty - sy| ≤ AI_ATTACK_RANGE then true
  else false

/-- `Enemy._get_best_attack_direction`: probe the four directions in the fixed
order against the player first, then against the base cell. -/
def bestAttackDirection (e : EnemyE) (p : PlayerState) : Option Nat :=
  match ([(UP, 0, -1), (DOWN, 0, 1), (LEFT, -1, 0), (RIGHT, 1, 0)] :
      List (Nat × ℤ × ℤ)).find? (fun d =>
        canHitTarget ⌊e.x / 16⌋ ⌊e.y / 16⌋ ⌊p.x / 16⌋ ⌊p.y / 16⌋
          d.2.1 d.2.2) with
  | some d => some d.1
  | none =>
    match ([(UP, 0, -1), (DOWN, 0, 1), (LEFT, -1, 0), (RIGHT, 1, 0)] :
        List (Nat × ℤ × ℤ)).find? (fun d =>
          canHitTarget ⌊e.x / 16⌋ ⌊e.y / 16⌋ BASE_GRID_X BASE_GRID_Y
            d.2.1 d.2.2) with
    | some d => some d.1
    | none => none

/-- Python truthiness of the optional direction: `if target_direction:` is
false both for None and for the UP constant 0. -/
def dirTruthy (td : Option Nat) : Bool :=
  match td with
  | none => false
  | some d => decide (d ≠ 0)

/-- The fire chance `_try_fire` uses: 0.7 on a truthy attack direction,
0.2 otherwise. -/
def enemyFireChance (e : EnemyE) (p : PlayerState) : ℚ :=
  if dirTruthy (bestAttackDirection e p) then 7 / 10 else 2 / 10

/-- `Enemy._create_bullet`: muzzle position from the tank centre by facing
direction, double speed for the fast-shot archetype, owner = archetype,
default power. -/
def createEnemyBullet (e : EnemyE) : Bullet :=
  mkBullet
    (if e.direction = LEFT then e.x
     else if e.direction = RIGHT then e.x + (TILE_SIZE : ℚ)
     else e.x + ((Int.fdiv TILE_SIZE 2 : ℤ) : ℚ))
    (if e.direction = UP then e.y
     else if e.direction = DOWN then e.y + (TILE_SIZE : ℚ)
     else e.y + ((Int.fdiv TILE_SIZE 2 : ℤ) : ℚ))
    e.direction
    (if e.enemy_type = TANK_FAST_SHOT then BULLET_SPEED * 2 else BULLET_SPEED)
    e.enemy_type POWER_NORMAL

/-- `Enemy._try_fire` with the uniform draw `r` explicit: skip while the
cooldown has not reached the archetype's fire rate or the archetype already
owns a live projectile; otherwise fire with the two-tier chance, turning to a
truthy attack direction, resetting the cooldown and appending the bullet
(`_execute_fire`). -/
def tryFire (e : EnemyE) (bullets : List Bullet) (p : PlayerState) (r : ℚ) :
    EnemyE × List Bullet :=
  if e.fire_timer < enemyFireRate e.enemy_type then (e, bullets)
  else if 1 ≤ (bullets.filter fun b =>
      decide (b.owner_type = e.enemy_type)).length then (e, bullets)
  else if r < enemyFireChance e p then
    if dirTruthy (bestAttackDirection e p) then
      ({ e with
          direction := (bestAttackDirection e p).getD e.direction
          fire_timer := 0 },
        bullets ++ [createEnemyBullet { e with
          direction := (bestAttackDirection e p).getD e.direction
          fire_timer := 0 }])
    else
      ({ e with fire_timer := 0 },
        bullets ++ [createEnemyBullet { e with fire_timer := 0 }])
  else (e, bullets)

/-! ## Claim C9 -/

/-- C9: an enemy's per-tick firing evaluation creates no projectile and leaves
everything unchanged precisely when its cooldown has not elapsed or a live
projectile of its owner identity already exists; when neither holds, a fire
attempt proceeds under the two-tier fire chance — on success the cooldown is
reset to 0 and exactly one projectile is appended, on failure nothing
changes. -/
theorem enemy_fire_gate (e : EnemyE) (bullets : List Bullet) (p : PlayerState)
    (r : ℚ) :
    ((e.fire_timer < enemyFireRate e.enemy_type ∨
      1 ≤ (bullets.filter fun b =>
        decide (b.owner_type = e.enemy_type)).length) →
      tryFire e bullets p r = (e, bullets)) ∧
    (enemyFireRate e.enemy_type ≤ e.fire_timer →
      (bullets.filter fun b => decide (b.owner_type = e.enemy_type)).length =
        0 →
      ((r < enemyFireChance e p →
        (tryFire e bullets p r).1.fire_timer = 0 ∧
        (tryFire e bullets p r).2.length = bullets.length + 1) ∧
      (enemyFireChance e p ≤ r →
        tryFire e bullets p r = (e, bullets)))) := by
  constructor
  · intro hskip
    unfold tryFire
    rcases hskip with hcool | hlive
    · rw [if_pos hcool]
    · by_cases hcool : e.fire_timer < enemyFireRate e.enemy_type
      · rw [if_pos hcool]
      · rw [if_neg hcool, if_pos hlive]
  · intro hcool hlive
    constructor
    · intro hr
      unfold tryFire
      rw [if_neg (by omega), if_neg (by omega), if_pos hr]
      by_cases htd : dirTruthy (bestAttackDirection e p) = true
      · rw [if_pos htd]
        exact ⟨rfl, by rw [List.length_append, List.length_singleton]⟩
      · rw [if_neg htd]
        exact ⟨rfl, by rw [List.length_append, List.length_singleton]⟩
    · intro hr
      unfold tryFire
      rw [if_neg (by omega), if_neg (by omega), if_neg (by linarith)]

/-- The firing gate at a concrete enemy (light tank, cooldown elapsed, no live
projectile, no line to the player or base, draw 1/10 under the speculative
20% tier). -/
theorem enemy_fire_gate_witness :
    (((⟨32, 32, TANK_LIGHT, DOWN, 1, true, 0, 32, 32, false, 0, 90, 60,
        false, none⟩ : EnemyE).fire_timer <
        enemyFireRate (⟨32, 32, TANK_LIGHT, DOWN, 1, true, 0, 32, 32, false,
          0, 90, 60, false, none⟩ : EnemyE).enemy_type ∨
      1 ≤ (([] : List Bullet).filter fun b =>
        decide (b.owner_type = (⟨32, 32, TANK_LIGHT, DOWN, 1, true, 0, 32, 32,
          false, 0, 90, 60, false, none⟩ : EnemyE).enemy_type)).length) →
      tryFire ⟨32, 32, TANK_LIGHT, DOWN, 1, true, 0, 32, 32, false, 0, 90, 60,
          false, none⟩ [] ⟨72, 72, UP, POWER_NORMAL, 3, 0⟩ (1/10) =
        (⟨32, 32, TANK_LIGHT, DOWN, 1, true, 0, 32, 32, false, 0, 90, 60,
          false, none⟩, [])) ∧
    (enemyFireRate (⟨32, 32, TANK_LIGHT, DOWN, 1, true, 0, 32, 32, false, 0,
        90, 60, false, none⟩ : EnemyE).enemy_type ≤
        (⟨32, 32, TANK_LIGHT, DOWN, 1, true, 0, 32, 32, false, 0, 90, 60,
          false, none⟩ : EnemyE).fire_timer →
      (([] : List Bullet).filter fun b =>
        decide (b.owner_type = (⟨32, 32, TANK_LIGHT, DOWN, 1, true, 0, 32, 32,
          false, 0, 90, 60, false, none⟩ : EnemyE).enemy_type)).length = 0 →
      (((1/10 : ℚ) < enemyFireChance ⟨32, 32, TANK_LIGHT, DOWN, 1, true, 0,
          32, 32, false, 0, 90, 60, false, none⟩
          ⟨72, 72, UP, POWER_NORMAL, 3, 0⟩ →
        (tryFire ⟨32, 32, TANK_LIGHT, DOWN, 1, true, 0, 32, 32, false, 0, 90,
          60, false, none⟩ [] ⟨72, 72, UP, POWER_NORMAL, 3, 0⟩
          (1/10)).1.fire_timer = 0 ∧
        (tryFire ⟨32, 32, TANK_LIGHT, DOWN, 1, true, 0, 32, 32, false, 0, 90,
          60, false, none⟩ [] ⟨72, 72, UP, POWER_NORMAL, 3, 0⟩
          (1/10)).2.length = ([] : List Bullet).length + 1) ∧
      (enemyFireChance ⟨32, 32, TANK_LIGHT, DOWN, 1, true, 0, 32, 32, false,
          0, 90, 60, false, none⟩ ⟨72, 72, UP, POWER_NORMAL, 3, 0⟩ ≤
          (1/10 : ℚ) →
        tryFire ⟨32, 32, TANK_LIGHT, DOWN, 1, true, 0, 32, 32, false, 0, 90,
            60, false, none⟩ [] ⟨72, 72, UP, POWER_NORMAL, 3, 0⟩ (1/10) =
          (⟨32, 32, TANK_LIGHT, DOWN, 1, true, 0, 32, 32, false, 0, 90, 60,
            false, none⟩, [])))) :=
  enemy_fire_gate
    ⟨32, 32, TANK_LIGHT, DOWN, 1, true, 0, 32, 32, false, 0, 90, 60, false,
      none⟩ [] ⟨72, 72, UP, POWER_NORMAL, 3, 0⟩ (1/10)

end BattleTank
